import Mathlib

set_option maxRecDepth 10000

/-!
Shallow embedding of the raw-HID hub dispatch engine (src/raw_hid_hub.c).

The embedding models the state touched by the dispatch worker (the
assignment table, the per-identifier outgoing queues, the shared report
buffer and the registration cursor) together with the session nodes and
the operations of the protocol engine.  Machine integers are modelled as
Nat; device identifiers are bytes 0..255 where 255 is the shared
HUB / UNASSIGNED sentinel.  Per-identifier C arrays become Lean lists of
the same fixed length; an out-of-bounds C access corresponds to a
List.set that is a no-op or a List.get? that returns none, and is called
out in a comment where the source actually performs one.  Reading from a
device (hid_read) is modelled by handing the dispatch functions the list
of reports pending on that device; writing (hid_write) by returning the
list of reports written.  Timestamps are kept outside the hub state and
appear only in the model of main_sleep.  Verbose printing and the
per-pair message counters are observability-only and are omitted.
-/

namespace RawHidHub

/-- QMK_RAW_HID_REPORT_SIZE: every exchanged report is 32 payload bytes. -/
def QMK_RAW_HID_REPORT_SIZE : Nat := 32

/-- RAW_HID_HUB_COMMAND_ID: the command tag expected in byte 0. -/
def RAW_HID_HUB_COMMAND_ID : Nat := 0x27

/-- N_UNIQUE_DEVICE_IDS: identifiers 0..254 are for devices, 255 is reserved. -/
def N_UNIQUE_DEVICE_IDS : Nat := 255

/-- DEVICE_ID_UNASSIGNED: sentinel for a session with no identifier. -/
def DEVICE_ID_UNASSIGNED : Nat := N_UNIQUE_DEVICE_IDS

/-- DEVICE_ID_HUB: wire identifier of the hub itself (same value 255). -/
def DEVICE_ID_HUB : Nat := N_UNIQUE_DEVICE_IDS

/-- MAX_REGISTERED_DEVICES: capacity of the dense assigned-identifier array. -/
def MAX_REGISTERED_DEVICES : Nat := 30

/-- DEVICE_ID_IS_VALID(device_id): 0 <= device_id < N_UNIQUE_DEVICE_IDS. -/
def DEVICE_ID_IS_VALID (device_id : Nat) : Bool :=
  device_id < N_UNIQUE_DEVICE_IDS

/-- One 32-byte report (a list of byte values). -/
abbrev Report := List Nat

/-- raw_hid_node_t: one session.  The transport handle, path string and the
discovery-local is_in_enumeration flag play no role in the dispatch-side
claims and are omitted. -/
structure RawHidNode where
  device_id : Nat
  is_marked_for_unregistration : Bool
  is_marked_for_deletion : Bool
deriving DecidableEq

/-- The global mutable state owned by the dispatch worker:
device_id_is_assigned[255], assigned_device_ids[30], n_registered_devices,
next_unassigned_device_id, registrations_changed,
device_id_message_queue[255] and the shared report buffer buffer_data
(the 32-byte payload view of buffer_report_id_and_data). -/
structure HubState where
  device_id_is_assigned : List Bool
  assigned_device_ids : List Nat
  n_registered_devices : Nat
  next_unassigned_device_id : Nat
  registrations_changed : Bool
  device_id_message_queue : List (List Report)
  buffer_data : Report
deriving DecidableEq

/-- The state set up by main before the loop starts: both per-identifier
arrays zeroed except assigned_device_ids, which is memset to
DEVICE_ID_UNASSIGNED (0xFF); the cursor starts at 1. -/
def initial_hub : HubState where
  device_id_is_assigned := List.replicate N_UNIQUE_DEVICE_IDS false
  assigned_device_ids := List.replicate MAX_REGISTERED_DEVICES DEVICE_ID_UNASSIGNED
  n_registered_devices := 0
  next_unassigned_device_id := 1
  registrations_changed := false
  device_id_message_queue := List.replicate N_UNIQUE_DEVICE_IDS []
  buffer_data := List.replicate QMK_RAW_HID_REPORT_SIZE 0

/-- raw_hid_node_new: a freshly opened session starts unassigned with both
retirement flags clear. -/
def raw_hid_node_new : RawHidNode where
  device_id := DEVICE_ID_UNASSIGNED
  is_marked_for_unregistration := false
  is_marked_for_deletion := false

/-- message_queue_push: append one report to queue[device_id], after the
DEVICE_ID_IS_VALID guard. -/
def message_queue_push (queues : List (List Report)) (device_id : Nat)
    (data : Report) : List (List Report) :=
  if DEVICE_ID_IS_VALID device_id then
    queues.set device_id (queues.getD device_id [] ++ [data])
  else queues

/-- message_queue_clear: drop every report queued for device_id, after the
DEVICE_ID_IS_VALID guard. -/
def message_queue_clear (queues : List (List Report)) (device_id : Nat) :
    List (List Report) :=
  if DEVICE_ID_IS_VALID device_id then queues.set device_id [] else queues

/-- The cursor-advance loop of register_node:
while (device_id_is_assigned[next]) next = (next + 1) % 255.
The C loop has no fuel; it diverges only when all 255 bits are set, a
situation register_node itself can only approach through the stale-bit
defect exposed below.  The fuel of 255 covers every terminating run. -/
def advance_cursor (is_assigned : List Bool) : Nat → Nat → Nat
  | cursor, 0 => cursor
  | cursor, fuel + 1 =>
    if is_assigned.getD cursor false then
      advance_cursor is_assigned ((cursor + 1) % N_UNIQUE_DEVICE_IDS) fuel
    else cursor

/-- register_node: returns 1 on success, 0 when the node already holds a
valid identifier, -1 when the table is full. -/
def register_node (hub : HubState) (node : RawHidNode) :
    HubState × RawHidNode × Int :=
  if DEVICE_ID_IS_VALID node.device_id then (hub, node, 0)
  else if hub.n_registered_devices = MAX_REGISTERED_DEVICES then (hub, node, -1)
  else
    let node := { node with device_id := hub.next_unassigned_device_id }
    let is_assigned :=
      hub.device_id_is_assigned.set hub.next_unassigned_device_id true
    let cursor :=
      advance_cursor is_assigned hub.next_unassigned_device_id N_UNIQUE_DEVICE_IDS
    ({ hub with
        device_id_is_assigned := is_assigned,
        next_unassigned_device_id := cursor,
        assigned_device_ids :=
          hub.assigned_device_ids.set hub.n_registered_devices node.device_id,
        n_registered_devices := hub.n_registered_devices + 1,
        registrations_changed := true },
      node, 1)

/-- The removal loop of unregister_node: the first slot i < n holding the
identifier receives the last live slot, the last live slot becomes the
sentinel, and the scan breaks. -/
def remove_assigned_id (d n : Nat) (ids : List Nat) : List Nat → List Nat
  | [] => ids
  | i :: rest =>
    if ids.get? i = some d then
      (ids.set i (ids.getD (n - 1) DEVICE_ID_UNASSIGNED)).set
        (n - 1) DEVICE_ID_UNASSIGNED
    else remove_assigned_id d n ids rest

/-- unregister_node.  Faithful to the source order of effects: the queue is
cleared and the identifier removed from assigned_device_ids while
node.device_id still holds it, but the source then resets
node->device_id to DEVICE_ID_UNASSIGNED BEFORE executing
device_id_is_assigned[node->device_id] = false, so that store targets
index 255 — one past the end of the 255-entry array.  The out-of-bounds
store is modelled by List.set at index 255, a no-op on the in-bounds
array; the bit for the released identifier is left set. -/
def unregister_node (hub : HubState) (node : RawHidNode) :
    HubState × RawHidNode :=
  if node.device_id = DEVICE_ID_UNASSIGNED then (hub, node)
  else
    let queues := message_queue_clear hub.device_id_message_queue node.device_id
    let ids := remove_assigned_id node.device_id hub.n_registered_devices
      hub.assigned_device_ids (List.range hub.n_registered_devices)
    let node := { node with device_id := DEVICE_ID_UNASSIGNED }
    let is_assigned := hub.device_id_is_assigned.set node.device_id false
    ({ hub with
        device_id_message_queue := queues,
        assigned_device_ids := ids,
        device_id_is_assigned := is_assigned,
        n_registered_devices := hub.n_registered_devices - 1,
        registrations_changed := true },
      node)

/-- The identifier-swap loop that both the personal snapshot and the
membership broadcast run after memcpy-ing assigned_device_ids into
buffer bytes 2..31:
for (j = 3; j < n_registered_devices + 2; j++)
  if (buffer[j] == destination) then swap buffer[j] and buffer[2], break.
The argument list holds the scanned indices (List.range' 3 (n - 1)). -/
def swap_destination_to_front (destination : Nat) (buf : Report) :
    List Nat → Report
  | [] => buf
  | j :: rest =>
    if buf.get? j = some destination then
      (buf.set j (buf.getD 2 0)).set 2 destination
    else swap_destination_to_front destination buf rest

/-- The shared report-building sequence of communicate_with_raw_hid_device,
textually identical in the snapshot branch and in the broadcast loop:
memcpy(buffer_data + 2, assigned_device_ids, MAX_REGISTERED_DEVICES)
followed by the swap loop above.  Bytes 0 and 1 are NOT written: they
keep whatever the shared buffer currently holds. -/
def membership_report (hub : HubState) (destination : Nat) : Report :=
  swap_destination_to_front destination
    (hub.buffer_data.take 2 ++ hub.assigned_device_ids)
    (List.range' 3 (hub.n_registered_devices - 1))

/-- One successfully read report, classified exactly as in the read drain of
communicate_with_raw_hid_device.  hid_read deposits the report in the
shared buffer first; every later buffer access sees this report. -/
def process_report (hub : HubState) (node : RawHidNode) (report : Report) :
    HubState × RawHidNode :=
  let hub := { hub with buffer_data := report }
  if hub.buffer_data.getD 0 0 ≠ RAW_HID_HUB_COMMAND_ID then
    (hub, node)
  else if hub.buffer_data.getD 1 0 = DEVICE_ID_HUB ∧
      hub.buffer_data.getD 2 0 = 1 then
    -- registration report
    let r := register_node hub node
    if r.2.2 = 0 then
      -- registrations didn't change, so respond to only this device
      let destination := r.2.1.device_id
      let buf := membership_report r.1 destination
      ({ r.1 with
          buffer_data := buf,
          device_id_message_queue :=
            message_queue_push r.1.device_id_message_queue destination buf },
        r.2.1)
    else (r.1, r.2.1)
  else if ! DEVICE_ID_IS_VALID node.device_id then
    -- remaining cases only apply to registered devices
    (hub, node)
  else if hub.buffer_data.getD 1 0 = DEVICE_ID_HUB ∧
      hub.buffer_data.getD 2 0 = 0 then
    -- unregistration report
    unregister_node hub node
  else if hub.buffer_data.getD 1 0 ≠ DEVICE_ID_HUB then
    -- message report
    let destination := hub.buffer_data.getD 1 0
    if ! hub.device_id_is_assigned.getD destination false then (hub, node)
    else
      let buf := hub.buffer_data.set 1 node.device_id
      ({ hub with
          buffer_data := buf,
          device_id_message_queue :=
            message_queue_push hub.device_id_message_queue destination buf },
        node)
  else (hub, node)

/-- The goto-centralised read drain: process the pending reports in order
until hid_read returns zero. -/
def process_reads (hub : HubState) (node : RawHidNode) :
    List Report → HubState × RawHidNode
  | [] => (hub, node)
  | report :: rest =>
    let r := process_report hub node report
    process_reads r.1 r.2 rest

/-- The body of the status-report loop: for each live slot i the recipient is
assigned_device_ids[i]; the report is built in the shared buffer (bytes 0
and 1 are left as-is) and pushed onto the recipient's queue. -/
def queue_status_reports_loop (hub : HubState) : List Nat → HubState
  | [] => hub
  | i :: rest =>
    let destination := hub.assigned_device_ids.getD i DEVICE_ID_UNASSIGNED
    let buf := membership_report hub destination
    queue_status_reports_loop
      { hub with
        buffer_data := buf,
        device_id_message_queue :=
          message_queue_push hub.device_id_message_queue destination buf }
      rest

/-- The status-report block run after the read drain: when
registrations_changed is set, queue one membership report per live slot,
then clear the flag. -/
def queue_status_reports (hub : HubState) : HubState :=
  if hub.registrations_changed then
    let hub := queue_status_reports_loop hub
      (List.range hub.n_registered_devices)
    { hub with registrations_changed := false }
  else hub

/-- The outbound drain:
while (device_id_message_queue[node->device_id] != NULL) pop and write.
The source runs this for EVERY serviced session, including unassigned
ones, where node->device_id = 255 indexes one past the end of the
255-entry queue array; the embedding makes that an Option read that
yields none, taken as an empty queue.  Each pop copies the report into
the shared buffer, so after a non-empty drain the buffer holds the last
report written. -/
def send_to_device (hub : HubState) (device_id : Nat) :
    HubState × List Report :=
  match hub.device_id_message_queue.get? device_id with
  | none => (hub, [])
  | some q =>
    ({ hub with
        device_id_message_queue := hub.device_id_message_queue.set device_id [],
        buffer_data := q.getLast?.getD hub.buffer_data },
      q)

/-- communicate_with_raw_hid_device: read drain, then status reports, then
outbound drain.  Returns the updated hub, the updated node and the list
of reports written to the device. -/
def communicate_with_raw_hid_device (hub : HubState) (node : RawHidNode)
    (reads : List Report) : HubState × RawHidNode × List Report :=
  let r := process_reads hub node reads
  let hub := queue_status_reports r.1
  let s := send_to_device hub r.2.device_id
  (s.1, r.2, s.2)

/-- One node of the dispatch pass in iterate_over_raw_hid_devices: a node
marked for unregistration is unregistered and delete-acknowledged
without communicating; any other node is serviced. -/
def iterate_step (hub : HubState) (node : RawHidNode) (reads : List Report) :
    HubState × RawHidNode × List Report :=
  if node.is_marked_for_unregistration then
    let u := unregister_node hub node
    (u.1, { u.2 with is_marked_for_deletion := true }, [])
  else
    communicate_with_raw_hid_device hub node reads

/-- iterate_over_raw_hid_devices: walk the published session list in order,
feeding each node the reports pending on its device. -/
def iterate_over_raw_hid_devices (hub : HubState) :
    List RawHidNode → List (List Report) → HubState × List RawHidNode
  | [], _ => (hub, [])
  | node :: nodes, reads =>
    let r := iterate_step hub node (reads.headD [])
    let rest := iterate_over_raw_hid_devices r.1 nodes reads.tail
    (rest.1, r.2.1 :: rest.2)

/-- handle_raw_hid_device_missing i: the discovery worker's action on the
i-th session once it vanished from enumeration.  Returns 1 when the node
was unlinked and freed, 0 when it was only marked for unregistration.
The C function is never invoked with a dangling position; an
out-of-range i is mapped to a no-op. -/
def handle_raw_hid_device_missing (nodes : List RawHidNode) (i : Nat) :
    List RawHidNode × Int :=
  match nodes.get? i with
  | none => (nodes, 0)
  | some node =>
    if node.is_marked_for_deletion then (nodes.eraseIdx i, 1)
    else
      (nodes.set i { node with is_marked_for_unregistration := true }, 0)

/-- The whole mutable picture the two workers share: the dispatch-owned hub
state and the published session list (reachability from the registry
head = membership in the list). -/
structure SystemState where
  hub : HubState
  nodes : List RawHidNode
deriving DecidableEq

/-- Interleaved atomic-grained steps of the two workers:
the discovery worker appends a fresh session (raw_hid_node_new) or
handles one vanished session (handle_raw_hid_device_missing); the
dispatch worker runs one full pass with an arbitrary read schedule. -/
inductive SystemStep : SystemState → SystemState → Prop
  | insert_node (s : SystemState) :
      SystemStep s ⟨s.hub, s.nodes ++ [raw_hid_node_new]⟩
  | dispatch_pass (s : SystemState) (reads : List (List Report)) :
      SystemStep s
        ⟨(iterate_over_raw_hid_devices s.hub s.nodes reads).1,
          (iterate_over_raw_hid_devices s.hub s.nodes reads).2⟩
  | device_missing (s : SystemState) (i : Nat) :
      SystemStep s ⟨s.hub, (handle_raw_hid_device_missing s.nodes i).1⟩

/-- States reachable from the post-initialization state (empty registry,
initial hub state). -/
inductive SystemReachable : SystemState → Prop
  | init : SystemReachable ⟨initial_hub, []⟩
  | step {s t : SystemState} (hs : SystemReachable s) (ht : SystemStep s t) :
      SystemReachable t

/-- main_sleep (smart-sleep variant, both platforms): the quantum is slept
exactly when last_message_time_ms - current_time_ms, computed in
uint64_t arithmetic, exceeds the 100 ms grace constant. -/
def U64_MOD : Nat := 2 ^ 64

/-- Wrapping unsigned 64-bit subtraction a - b. -/
def uint64_sub (a b : Nat) : Nat :=
  (a % U64_MOD + (U64_MOD - b % U64_MOD)) % U64_MOD

/-- SMART_SLEEP_WAIT_MILLISECONDS (both the Windows and the POSIX value). -/
def SMART_SLEEP_WAIT_MILLISECONDS : Nat := 100

/-- main_sleep: true iff the end-of-pass quantum sleep is taken.  The source
comparison is last_message_time_ms - current_time_ms, in that order. -/
def main_sleep (last_message_time_ms current_time_ms : Nat) : Bool :=
  uint64_sub last_message_time_ms current_time_ms >
    SMART_SLEEP_WAIT_MILLISECONDS

/-- The register request of the operational contract:
{0x27, 0xFF, 0x01, 0x00 * 29}. -/
def register_report : Report :=
  RAW_HID_HUB_COMMAND_ID :: DEVICE_ID_HUB :: 1 :: List.replicate 29 0

/-- The unregister request: {0x27, 0xFF, 0x00, 0x00 * 29}. -/
def unregister_report : Report :=
  RAW_HID_HUB_COMMAND_ID :: DEVICE_ID_HUB :: 0 :: List.replicate 29 0

/-- The state and node produced by registering one fresh session in the
initial state: the session holds identifier 1, the cursor moved to 2. -/
def one_registered : HubState × RawHidNode × Int :=
  register_node initial_hub raw_hid_node_new

/-- A report whose command byte is not RAW_HID_HUB_COMMAND_ID; the hub
discards it, but it stays in the shared buffer. -/
def garbage_report : Report := 0x99 :: 0x42 :: List.replicate 30 0

/-- A forward report addressed to the unassigned identifier 5. -/
def forward_to_unassigned_report : Report :=
  RAW_HID_HUB_COMMAND_ID :: 5 :: 0xAB :: List.replicate 29 0

/-- A forward report addressed to identifier 2. -/
def forward_report : Report :=
  RAW_HID_HUB_COMMAND_ID :: 2 :: 0xAB :: List.replicate 29 0

/-- C7 scenario: the only device sends the register request from the initial
state. -/
def c7_result : HubState × RawHidNode × List Report :=
  communicate_with_raw_hid_device initial_hub raw_hid_node_new
    [register_report]

/-- C3 scenario, pass 1: two fresh devices each send a register request;
they obtain identifiers 1 and 2. -/
def c3_pass1 : HubState × List RawHidNode :=
  iterate_over_raw_hid_devices initial_hub
    [raw_hid_node_new, raw_hid_node_new]
    [[register_report], [register_report]]

/-- C3 scenario, pass 2: the second device sends the unregister request. -/
def c3_pass2 : HubState × List RawHidNode :=
  iterate_over_raw_hid_devices c3_pass1.1 c3_pass1.2 [[], [unregister_report]]

/-- C3 scenario, pass 3: the first device forwards a report to the now
retired identifier 2; nothing re-registered identifier 2 in between. -/
def c3_pass3 : HubState × List RawHidNode :=
  iterate_over_raw_hid_devices c3_pass2.1 c3_pass2.2 [[forward_report], []]

/-- C5 scenario: registration changes pending, and the shared buffer last
held a discarded non-hub report when the broadcast block runs. -/
def c5_hub : HubState :=
  queue_status_reports
    (process_reads initial_hub raw_hid_node_new
      [register_report, garbage_report]).1

/-- C6 scenario: registration changes pending, and the shared buffer last
held a dropped forward report when the broadcast block runs. -/
def c6_hub : HubState :=
  queue_status_reports
    (process_reads initial_hub raw_hid_node_new
      [register_report, forward_to_unassigned_report]).1

/-- C1: the claim states that unregister(S) on a session holding identifier
d clears the queue, swap-removes d from assigned_device_ids, shrinks
n_registered_devices, resets S.device_id to 255 AND sets
is_assigned[d] to false.  The source performs all of these except the
last: it resets node->device_id to 255 first and then stores false at
device_id_is_assigned[255] (out of bounds), so the bit for d = 1 stays
true.  This theorem evaluates the code at the failing input: a hub with
the single registered session of identifier 1. -/
theorem unregister_leaves_assignment_bit_set :
    (unregister_node one_registered.1 one_registered.2.1).1.device_id_message_queue.getD 1 [] = [] ∧
    (unregister_node one_registered.1 one_registered.2.1).1.assigned_device_ids =
      List.replicate MAX_REGISTERED_DEVICES DEVICE_ID_UNASSIGNED ∧
    (unregister_node one_registered.1 one_registered.2.1).1.n_registered_devices = 0 ∧
    (unregister_node one_registered.1 one_registered.2.1).2.device_id =
      DEVICE_ID_UNASSIGNED ∧
    (unregister_node one_registered.1 one_registered.2.1).1.device_id_is_assigned.getD 1 false = true := by
  decide

/-- C2: the claim states that n_registered_devices always equals the number
of set entries of device_id_is_assigned and that register_node and
unregister_node preserve this.  unregister_node breaks it: starting from
the initial state, one register followed by one unregister leaves
n_registered_devices = 0 while one assignment bit (identifier 1) is
still set, because the clearing store went to index 255. -/
theorem n_registered_diverges_from_assigned_count :
    one_registered.1.n_registered_devices =
      one_registered.1.device_id_is_assigned.count true ∧
    (unregister_node one_registered.1 one_registered.2.1).1.n_registered_devices = 0 ∧
    (unregister_node one_registered.1 one_registered.2.1).1.device_id_is_assigned.count true = 1 := by
  decide

/-- C3: the claim states that after unregister(S) with identifier d,
queue[d] stays empty until a fresh registration of d.  In the concrete
three-pass run: devices get identifiers 1 and 2, device 2 unregisters
(queue[2] is empty right after), then device 1 forwards to identifier 2
and — because device_id_is_assigned[2] was left set by the defective
clear — the forward IS pushed onto queue[2], with no session holding
identifier 2 and no fresh registration in between. -/
theorem forward_after_unregister_is_queued :
    c3_pass2.1.device_id_message_queue.getD 2 [] = [] ∧
    c3_pass2.2.map RawHidNode.device_id = [1, DEVICE_ID_UNASSIGNED] ∧
    c3_pass3.2.map RawHidNode.device_id = [1, DEVICE_ID_UNASSIGNED] ∧
    c3_pass3.1.device_id_message_queue.getD 2 [] =
      [RAW_HID_HUB_COMMAND_ID :: 1 :: 0xAB :: List.replicate 29 0] := by
  decide

/-- C4: the claim states every per-identifier array access is at an index in
0..254.  Two accesses are not.  (a) unregister_node stores false at
device_id_is_assigned[255] — one past the end — so the 255-entry array
is left completely unchanged even though a bit should have been
cleared.  (b) the outbound drain services every session, and for the
fresh unregistered session node->device_id = 255 indexes the 255-entry
queue array one past the end: the Option-returning embedding answers
none there, i.e. the out-of-bounds branch IS reached. -/
theorem per_identifier_array_index_escapes_bounds :
    (unregister_node one_registered.1 one_registered.2.1).1.device_id_is_assigned =
      one_registered.1.device_id_is_assigned ∧
    one_registered.1.device_id_is_assigned.getD 1 false = true ∧
    raw_hid_node_new.device_id = 255 ∧
    initial_hub.device_id_message_queue.length = 255 ∧
    initial_hub.device_id_message_queue.get? raw_hid_node_new.device_id = none ∧
    (send_to_device initial_hub raw_hid_node_new.device_id).2 = [] := by
  decide

/-- C5: the claim states that no operation ever enqueues a report whose
byte 0 differs from 0x27.  The broadcast block never writes bytes 0 and
1 of the shared buffer; when one device sends a register request
followed by a discarded report with byte 0 = 0x99 in the same drain, the
membership broadcast queued afterwards carries byte 0 = 0x99. -/
theorem broadcast_enqueues_stale_command_byte :
    (c5_hub.device_id_message_queue.getD 1 []).map (fun r => r.getD 0 0) =
      [0x99] ∧
    (0x99 : Nat) ≠ RAW_HID_HUB_COMMAND_ID := by
  decide

/-- C6: the claim states every membership broadcast report has byte 0 = 0x27
and byte 1 = 255 (HUB).  The broadcast block re-uses bytes 0 and 1 of
the shared buffer; when one device sends a register request followed by
a forward to the unassigned identifier 5 (dropped, but left in the
buffer), the broadcast queued afterwards carries byte 1 = 5, not 255. -/
theorem broadcast_enqueues_stale_origin_byte :
    (c6_hub.device_id_message_queue.getD 1 []).map (fun r => r.getD 1 0) =
      [5] ∧
    (c6_hub.device_id_message_queue.getD 1 []).map (fun r => r.getD 0 0) =
      [RAW_HID_HUB_COMMAND_ID] ∧
    (5 : Nat) ≠ DEVICE_ID_HUB := by
  decide

/-- C7 counterexample: the claim predicts the reply
{0x27, 0xFF, 0x01, 0x00 * 29}; in the embedding of the single-register
scenario the device is indeed assigned identifier 1 but the written
report is not the claimed one (its 29 trailing bytes are 0xFF, the
sentinel value memset into assigned_device_ids, not 0x00). -/
theorem single_register_reply_is_not_zero_padded :
    c7_result.2.1.device_id = 1 ∧
    c7_result.2.2 ≠
      [RAW_HID_HUB_COMMAND_ID :: DEVICE_ID_HUB :: 1 :: List.replicate 29 0] := by
  decide

/-- C7 (amended): from the initial state, when the only device sends the
register request {0x27, 0xFF, 0x01, 0x00 * 29}, it is assigned
identifier 1 and the one report written back to it is
{0x27, 0xFF, 0x01} followed by 29 bytes of 0xFF — its own identifier at
byte 2 followed by DEVICE_ID_UNASSIGNED sentinel slots, because
assigned_device_ids is initialised to 0xFF and copied whole. -/
theorem single_register_reply_exact :
    c7_result.2.1.device_id = 1 ∧
    c7_result.2.2 =
      [RAW_HID_HUB_COMMAND_ID :: DEVICE_ID_HUB :: 1 ::
        List.replicate 29 DEVICE_ID_UNASSIGNED] := by
  decide

/-- C8: the claim states the quantum sleep is taken exactly when
current_time_ms - last_message_time_ms (unsigned) exceeds 100 ms.
The source compares the operands in the opposite order
(last_message_time_ms - current_time_ms), so 50 ms after the last
message — where the claim forbids sleeping — the wrapped difference is
2^64 - 50 > 100 and the sleep IS taken. -/
theorem smart_sleep_fires_on_recent_traffic :
    main_sleep 0 50 = true ∧
    uint64_sub 50 0 = 50 ∧
    ¬ uint64_sub 50 0 > SMART_SLEEP_WAIT_MILLISECONDS := by
  constructor
  · decide
  · constructor <;> decide

/-- The reachable system state refuting C9: one linked session whose
delete-acknowledged flag is set. -/
def c9_state : SystemState :=
  ⟨initial_hub,
    [{ device_id := DEVICE_ID_UNASSIGNED,
       is_marked_for_unregistration := true,
       is_marked_for_deletion := true }]⟩

/-- C9 counterexample: the claim states a session with delete-acknowledged
set is never reachable from the registry head.  In the interleaving
model the trace insert -> device-missing -> dispatch-pass reaches a
state whose single REACHABLE (linked) node has is_marked_for_deletion
set: it is the dispatch worker that sets the flag, while the node stays
linked until a later discovery pass unlinks it. -/
theorem deletion_flagged_node_still_reachable :
    SystemReachable c9_state ∧
    ∃ node ∈ c9_state.nodes, node.is_marked_for_deletion = true := by
  refine ⟨?_, ⟨_, List.mem_cons_self _ _, rfl⟩⟩
  have h0 : SystemReachable ⟨initial_hub, []⟩ := SystemReachable.init
  have h1 : SystemReachable ⟨initial_hub, [raw_hid_node_new]⟩ :=
    SystemReachable.step h0 (SystemStep.insert_node _)
  have h2 : SystemReachable
      ⟨initial_hub,
        [{ device_id := DEVICE_ID_UNASSIGNED,
           is_marked_for_unregistration := true,
           is_marked_for_deletion := false }]⟩ :=
    SystemReachable.step h1 (SystemStep.device_missing _ 0)
  exact SystemReachable.step h2 (SystemStep.dispatch_pass _ [])

/-- C9 (amended): the retirement handshake runs in the opposite order to the
claim: the dispatch worker sets delete-acknowledged while the node is
still linked, and the discovery worker unlinks (and only then frees) a
vanished session precisely when it observes the flag already set.  So:
whenever handle_raw_hid_device_missing unlinks (returns 1), the node at
that position already had is_marked_for_deletion = true, and the result
is exactly the list with that node removed. -/
theorem unlink_only_after_deletion_flag (nodes : List RawHidNode) (i : Nat)
    (h : (handle_raw_hid_device_missing nodes i).2 = 1) :
    ∃ node, nodes.get? i = some node ∧
      node.is_marked_for_deletion = true ∧
      (handle_raw_hid_device_missing nodes i).1 = nodes.eraseIdx i := by
  unfold handle_raw_hid_device_missing at h ⊢
  split at h
  · simp at h
  · rename_i node heq
    split at h
    · rename_i hd
      exact ⟨node, heq, hd, by simp [hd]⟩
    · simp at h

/-- Witness for the C9 amended theorem at a concrete input: a one-node list
whose node carries the deletion flag. -/
theorem unlink_only_after_deletion_flag_witness :
    (handle_raw_hid_device_missing
      [{ device_id := DEVICE_ID_UNASSIGNED,
         is_marked_for_unregistration := true,
         is_marked_for_deletion := true }] 0).2 = 1 ∧
    ∃ node,
      ([{ device_id := DEVICE_ID_UNASSIGNED,
          is_marked_for_unregistration := true,
          is_marked_for_deletion := true }] : List RawHidNode).get? 0 =
        some node ∧
      node.is_marked_for_deletion = true ∧
      (handle_raw_hid_device_missing
        [{ device_id := DEVICE_ID_UNASSIGNED,
           is_marked_for_unregistration := true,
           is_marked_for_deletion := true }] 0).1 =
        ([{ device_id := DEVICE_ID_UNASSIGNED,
            is_marked_for_unregistration := true,
            is_marked_for_deletion := true }] : List RawHidNode).eraseIdx 0 :=
  ⟨by decide, unlink_only_after_deletion_flag _ 0 (by decide)⟩

/-- If the destination already sits at byte 2, or at one of the scanned
positions, the swap loop leaves (or places) it at byte 2. -/
theorem swap_destination_get2 (destination : Nat) :
    ∀ (js : List Nat) (buf : Report), 2 < buf.length →
      (buf.get? 2 = some destination ∨
        ∃ j ∈ js, buf.get? j = some destination) →
      (swap_destination_to_front destination buf js).get? 2 =
        some destination := by
  intro js
  induction js with
  | nil =>
    intro buf _ hmem
    rcases hmem with h2 | ⟨j, hj, _⟩
    · simpa [swap_destination_to_front] using h2
    · exact absurd hj (List.not_mem_nil j)
  | cons j rest ih =>
    intro buf hlen hmem
    unfold swap_destination_to_front
    by_cases hj : buf.get? j = some destination
    · rw [if_pos hj]
      exact List.get?_set_eq_of_lt _ (by simpa using hlen)
    · rw [if_neg hj]
      apply ih buf hlen
      rcases hmem with h2 | ⟨j', hj', hget⟩
      · exact Or.inl h2
      · rcases List.mem_cons.mp hj' with rfl | hmem'
        · exact absurd hget hj
        · exact Or.inr ⟨j', hmem', hget⟩

/-- The conclusion of claim C10, spelled over the embedding: processing a
register request from a session that already holds a valid identifier
changes neither the allocator state nor the session, and pushes exactly
one snapshot report onto the session's own queue, with the session's
identifier at byte 2. -/
def RegisterIdempotentSpec (hub : HubState) (node : RawHidNode) : Prop :=
  (process_report hub node register_report).2 = node ∧
  (process_report hub node register_report).1.device_id_is_assigned =
    hub.device_id_is_assigned ∧
  (process_report hub node register_report).1.assigned_device_ids =
    hub.assigned_device_ids ∧
  (process_report hub node register_report).1.n_registered_devices =
    hub.n_registered_devices ∧
  (process_report hub node register_report).1.next_unassigned_device_id =
    hub.next_unassigned_device_id ∧
  (process_report hub node register_report).1.registrations_changed =
    hub.registrations_changed ∧
  ∃ snapshot : Report,
    (process_report hub node register_report).1.device_id_message_queue =
      hub.device_id_message_queue.set node.device_id
        (hub.device_id_message_queue.getD node.device_id [] ++ [snapshot]) ∧
    snapshot.get? 2 = some node.device_id

/-- C10: for a session already holding a valid identifier that moreover
appears in a live slot of assigned_device_ids (invariant 1 of the data
model), a second register request is idempotent on the allocator
(register_node returns 0 without touching is_assigned, assigned_ids,
n_registered or the cursor) and queues exactly one personal membership
snapshot on the session's own queue, own identifier at byte 2. -/
theorem register_twice_idempotent (hub : HubState) (node : RawHidNode)
    (hvalid : DEVICE_ID_IS_VALID node.device_id = true)
    (hmem : ∃ k, k < hub.n_registered_devices ∧
      hub.assigned_device_ids.get? k = some node.device_id) :
    RegisterIdempotentSpec hub node := by
  obtain ⟨k, hk, hget⟩ := hmem
  have hklen : k < hub.assigned_device_ids.length := by
    by_contra hge
    rw [List.get?_eq_none.mpr (Nat.le_of_not_lt hge)] at hget
    exact Option.noConfusion hget
  have hproc : process_report hub node register_report =
      ({ hub with
          buffer_data := membership_report
            { hub with buffer_data := register_report } node.device_id,
          device_id_message_queue := message_queue_push
            hub.device_id_message_queue node.device_id
            (membership_report
              { hub with buffer_data := register_report } node.device_id) },
        node) := by
    unfold process_report register_node
    simp [register_report, RAW_HID_HUB_COMMAND_ID, DEVICE_ID_HUB,
      N_UNIQUE_DEVICE_IDS, hvalid]
  have hbyte2 : (membership_report
      { hub with buffer_data := register_report } node.device_id).get? 2 =
      some node.device_id := by
    unfold membership_report
    show (swap_destination_to_front node.device_id
      (List.take 2 register_report ++ hub.assigned_device_ids)
      (List.range' 3 (hub.n_registered_devices - 1))).get? 2 =
      some node.device_id
    apply swap_destination_get2
    · rw [List.length_append]
      have : (List.take 2 register_report).length = 2 := rfl
      omega
    · have hpos : (List.take 2 register_report ++
          hub.assigned_device_ids).get? (2 + k) =
          some node.device_id := by
        rw [List.get?_append_right (by simp [register_report])]
        simpa [register_report] using hget
      rcases Nat.eq_zero_or_pos k with rfl | hkpos
      · exact Or.inl hpos
      · refine Or.inr ⟨2 + k, ?_, hpos⟩
        rw [List.mem_range']
        exact ⟨k - 1, by omega, by omega⟩
  refine ⟨by rw [hproc], by rw [hproc], by rw [hproc], by rw [hproc],
    by rw [hproc], by rw [hproc],
    ⟨membership_report { hub with buffer_data := register_report }
      node.device_id, ?_, hbyte2⟩⟩
  rw [hproc]
  show message_queue_push hub.device_id_message_queue node.device_id _ = _
  unfold message_queue_push
  rw [if_pos hvalid]

/-- Witness for C10 at a concrete input: the hub and session produced by one
successful registration from the initial state (identifier 1, live slot
0). -/
theorem register_twice_idempotent_witness :
    DEVICE_ID_IS_VALID one_registered.2.1.device_id = true ∧
    (∃ k, k < one_registered.1.n_registered_devices ∧
      one_registered.1.assigned_device_ids.get? k =
        some one_registered.2.1.device_id) ∧
    RegisterIdempotentSpec one_registered.1 one_registered.2.1 :=
  ⟨by decide, ⟨0, by decide, by decide⟩,
    register_twice_idempotent one_registered.1 one_registered.2.1
      (by decide) ⟨0, by decide, by decide⟩⟩

end RawHidHub
